import Mathlib

/-!
Shallow embedding of the QR check-in controller of the rsvp-admin
dashboard (the CheckInPage component) and of the error mapping of its API
client (lib/api.ts). JavaScript strings are modelled by Lean strings; the
JavaScript string operations the controller uses (toLowerCase, includes,
trim, the truthiness of strings and of optional fields) are embedded as
executable functions over the underlying character lists.
-/

namespace RsvpCheckIn

/-- Embedding of JavaScript truthiness for an optional string followed by
a default, as in the source expression m or-else d: undefined and the
empty string are falsy. -/
def strOrDefault (m : Option String) (d : String) : String :=
  match m with
  | some s => if s = "" then d else s
  | none => d

/-- Lowercases every character, embedding label.toLowerCase(). -/
def lowerChars (s : String) : List Char :=
  s.toList.map Char.toLower

/-- Checks whether the second list starts with the first. -/
def listStartsWith : List Char → List Char → Bool
  | [], _ => true
  | _ :: _, [] => false
  | p :: ps, c :: cs => p == c && listStartsWith ps cs

/-- Checks whether pat occurs contiguously in s, embedding the JavaScript
String.includes test used on device labels. -/
def listContainsSeq (pat : List Char) : List Char → Bool
  | [] => listStartsWith pat []
  | c :: cs => listStartsWith pat (c :: cs) || listContainsSeq pat cs

/-- Embedding of manualCode.trim(): strips leading and trailing
whitespace. -/
def jsTrim (s : String) : String :=
  ⟨((s.toList.dropWhile Char.isWhitespace).reverse.dropWhile
      Char.isWhitespace).reverse⟩

/-- Attendee payload fields the controller reads, from the CheckInResult
attendee shape in the component: eventId drives the event-match guard and
alreadyCheckedIn the idempotence guard; the rest travel as the snapshot. -/
structure Attendee where
  id : String
  name : String
  eventId : String
  alreadyCheckedIn : Option Bool
  checkedInAt : Option String
deriving Repr, DecidableEq

/-- Response body shape shared by GET /qr/validate and POST /qr/check-in,
mirroring the CheckInResult interface of the component: every field is
optional. -/
structure ApiCheckInResult where
  valid : Option Bool
  success : Option Bool
  attendee : Option Attendee
  message : Option String
deriving Repr, DecidableEq

/-- The APIError thrown by the api client request function: a status code
(zero for transport-level failures) and a message. -/
structure APIError where
  statusCode : Nat
  message : String
deriving Repr, DecidableEq

/-- Embedding of getErrorMessage from lib/api.ts restricted to APIError,
the only error the api client throws out of request. -/
def getErrorMessage (e : APIError) : String :=
  if e.statusCode = 400 then
    if e.message = "" then "Invalid request. Please check your input." else e.message
  else if e.statusCode = 401 then
    if e.message = "" then "Authentication failed. Please log in again." else e.message
  else if e.statusCode = 403 then
    "You don\x27t have permission to perform this action."
  else if e.statusCode = 404 then
    "Resource not found."
  else if e.statusCode = 500 then
    "Server error. Please try again later."
  else
    if e.message = "" then "An unexpected error occurred." else e.message

/-- The two server round trips one attempt can perform: the validate call
either throws an APIError or returns a body, and so does the commit
call. -/
structure ApiBehavior where
  validateResp : Except APIError ApiCheckInResult
  commitResp : Except APIError ApiCheckInResult

/-- The value passed to setResult by one branch of validateAndCheckIn. -/
structure ResultState where
  valid : Bool
  attendee : Option Attendee
  message : Option String
deriving Repr, DecidableEq

/-- Counts of API calls issued during one attempt. -/
structure Trace where
  validateCalls : Nat
  commitCalls : Nat
deriving Repr, DecidableEq

/-- Observable outcome of one validateAndCheckIn invocation: the calls it
issued and the result it set (none when the early guard returned). -/
structure AttemptOutcome where
  trace : Trace
  result : Option ResultState
deriving Repr, DecidableEq

/-- Result set when the validate response has a falsy valid flag or no
attendee payload. -/
def invalidResult (m : Option String) : ResultState :=
  ⟨false, none, some (strOrDefault m "Invalid QR code")⟩

/-- Result set when the attendee belongs to a different event. -/
def wrongEventResult : ResultState :=
  ⟨false, none, some "This QR code is for a different event"⟩

/-- Result set when the attendee was already checked in; it carries the
attendee snapshot. -/
def alreadyCheckedInResult (a : Attendee) : ResultState :=
  ⟨true, some a, some "Already checked in"⟩

/-- Result set when the commit response reports failure. -/
def commitFailedResult (m : Option String) : ResultState :=
  ⟨false, none, some (strOrDefault m "Check-in failed")⟩

/-- Result set on commit success: valid with the attendee snapshot taken
from the commit response, no message. -/
def successResult (att : Option Attendee) : ResultState :=
  ⟨true, att, none⟩

/-- Result set by the catch block: the mapped error text. -/
def caughtErrorResult (e : APIError) : ResultState :=
  ⟨false, none, some (getErrorMessage e)⟩

/-- The try block of validateAndCheckIn: the validate call, the three
guards in source order, then the conditional commit call. Thrown API
errors surface as the Except error case together with the calls already
issued. -/
def runValidateFlow (selectedEvent : String) (api : ApiBehavior) :
    Trace × Except APIError ResultState :=
  match api.validateResp with
  | .error e => (⟨1, 0⟩, .error e)
  | .ok v =>
    match v.attendee with
    | none => (⟨1, 0⟩, .ok (invalidResult v.message))
    | some a =>
      if v.valid.getD false = false then (⟨1, 0⟩, .ok (invalidResult v.message))
      else if a.eventId ≠ selectedEvent then (⟨1, 0⟩, .ok wrongEventResult)
      else if a.alreadyCheckedIn.getD false then
        (⟨1, 0⟩, .ok (alreadyCheckedInResult a))
      else
        match api.commitResp with
        | .error e => (⟨1, 1⟩, .error e)
        | .ok c =>
          if c.success.getD false = false then
            (⟨1, 1⟩, .ok (commitFailedResult c.message))
          else (⟨1, 1⟩, .ok (successResult c.attendee))

/-- Embedding of validateAndCheckIn: the early guard silently returns when
the code or the selected event is the empty string; otherwise the try
block runs and the catch block maps any thrown APIError through
getErrorMessage into an error result. -/
def validateAndCheckIn (qrCode selectedEvent : String) (api : ApiBehavior) :
    AttemptOutcome :=
  if qrCode = "" ∨ selectedEvent = "" then ⟨⟨0, 0⟩, none⟩
  else
    match runValidateFlow selectedEvent api with
    | (tr, .ok r) => ⟨tr, some r⟩
    | (tr, .error e) => ⟨tr, some (caughtErrorResult e)⟩

/-- One enumerated video input device, as returned by
listVideoInputDevices. -/
structure VideoDevice where
  deviceId : String
  label : String
deriving Repr, DecidableEq

/-- The back-camera label test from startScanning: the lowercased label
contains back, environment or rear. -/
def isBackCameraLabel (label : String) : Bool :=
  listContainsSeq "back".toList (lowerChars label) ||
  listContainsSeq "environment".toList (lowerChars label) ||
  listContainsSeq "rear".toList (lowerChars label)

/-- Outcome of the device-enumeration part of startScanning: either the
camera error path (setCameraError with No camera found and setScanning
false) or the chosen deviceId handed to decodeFromVideoDevice. -/
inductive StartScanOutcome
  | noCamera
  | started (deviceId : String)
deriving Repr, DecidableEq

/-- The selection body of startScanning after the emptiness check: the
first device is the default, a device with a back-facing label wins if one
exists, otherwise the last device when more than one was enumerated. -/
def chooseDeviceId (d0 : VideoDevice) (devices : List VideoDevice) : String :=
  match devices.find? (fun d => isBackCameraLabel d.label) with
  | some b => b.deviceId
  | none =>
    if 1 < devices.length then (devices.getLastD d0).deviceId
    else d0.deviceId

/-- Embedding of the device enumeration and selection in startScanning.
The function takes no event argument because the source reads nothing
about the selected event on this path. -/
def startScanning (devices : List VideoDevice) : StartScanOutcome :=
  match devices with
  | [] => .noCamera
  | d0 :: rest => .started (chooseDeviceId d0 (d0 :: rest))

/-- State of the codeReaderRef cell across teardown calls: the held reader
handle if any, and how many reset calls have been issued on handles. -/
structure ReaderState where
  reader : Option Nat
  resets : Nat
deriving Repr, DecidableEq

/-- Embedding of stopScanning: when the ref holds a reader it is reset and
the ref is cleared; otherwise nothing happens. -/
def stopScanning (s : ReaderState) : ReaderState :=
  match s.reader with
  | some _ => ⟨none, s.resets + 1⟩
  | none => s

/-- Event-loop state of one active scan session. scanning is the committed
React state, pendingScanning a scheduled setScanning value not yet
flushed, readerActive whether the zxing subscription still delivers decode
callbacks (it stops only when an effect flush runs stopScanning), and
validateStarts the number of validateAndCheckIn invocations so far. -/
structure SessionState where
  scanning : Bool
  pendingScanning : Option Bool
  readerActive : Bool
  validateStarts : Nat
deriving Repr, DecidableEq

/-- Events the session reacts to: a decoder callback delivering a decoded
text, and a React flush that commits pending state and runs the effect on
scanning (startScanning when true, stopScanning when false). -/
inductive SessionEvent
  | decode (code : String)
  | effectFlush
deriving Repr, DecidableEq

/-- One event-loop step. The decode callback body runs whenever the
reader subscription is still live: a non-empty text schedules
setScanning false and invokes validateAndCheckIn; the callback itself
never consults the scanning flag. A flush commits the scheduled value and
its effect releases the reader exactly when the committed value is
false. -/
def sessionStep (s : SessionState) (e : SessionEvent) : SessionState :=
  match e with
  | .decode code =>
    if s.readerActive && code ≠ "" then
      { s with pendingScanning := some false,
               validateStarts := s.validateStarts + 1 }
    else s
  | .effectFlush =>
    let sc := s.pendingScanning.getD s.scanning
    { scanning := sc,
      pendingScanning := none,
      readerActive := if sc then s.readerActive else false,
      validateStarts := s.validateStarts }

/-- Runs a list of session events from the state just after a scan
started: scanning committed true, no pending update, reader live, no
validations yet. -/
def runSession (events : List SessionEvent) : SessionState :=
  events.foldl sessionStep ⟨true, none, true, 0⟩

/-- Embedding of handleManualSubmit: when the trimmed manual code is
non-empty it calls validateAndCheckIn on the trimmed code and clears the
input, otherwise nothing runs. The pair is the attempt outcome and the
manualCode field after the handler. -/
def handleManualSubmit (manualCode selectedEvent : String)
    (api : ApiBehavior) : AttemptOutcome × String :=
  if jsTrim manualCode ≠ "" then
    (validateAndCheckIn (jsTrim manualCode) selectedEvent api, "")
  else
    (⟨⟨0, 0⟩, none⟩, manualCode)

/-- Attendee registered for event E1 and not yet checked in. -/
def sampleAttendee : Attendee :=
  ⟨"a1", "Ada Lovelace", "E1", some false, none⟩

/-- Attendee registered for event E2, used against a session on E1. -/
def otherEventAttendee : Attendee :=
  ⟨"a2", "Grace Hopper", "E2", some false, none⟩

/-- Attendee already marked checked in. -/
def checkedInAttendee : Attendee :=
  ⟨"a3", "Alan Turing", "E1", some true, some "2024-01-01T10:00:00Z"⟩

/-- Snapshot the commit endpoint returns on success, with checkedInAt
populated. -/
def committedAttendee : Attendee :=
  ⟨"a1", "Ada Lovelace", "E1", some true, some "2024-01-01T10:00:00Z"⟩

/-- Behavior where the attendee belongs to a different event. -/
def wrongEventApi : ApiBehavior :=
  ⟨.ok ⟨some true, none, some otherEventAttendee, none⟩,
   .ok ⟨none, some true, some otherEventAttendee, none⟩⟩

/-- Behavior of the happy path: valid, matching event, not checked in,
commit succeeds with the committed snapshot. -/
def happyApi : ApiBehavior :=
  ⟨.ok ⟨some true, none, some sampleAttendee, none⟩,
   .ok ⟨none, some true, some committedAttendee, none⟩⟩

/-- Behavior where the attendee is already checked in. -/
def alreadyApi : ApiBehavior :=
  ⟨.ok ⟨some true, none, some checkedInAttendee, none⟩,
   .ok ⟨none, some true, some checkedInAttendee, none⟩⟩

/-- Behavior where the validate response rejects the code. -/
def invalidApi : ApiBehavior :=
  ⟨.ok ⟨some false, none, none, some "QR code not found"⟩,
   .ok ⟨none, some true, none, none⟩⟩

/-- Behavior where the validate call fails at the transport level: the
api client throws APIError with status zero and its network message. -/
def netFailApi : ApiBehavior :=
  ⟨.error ⟨0, "Network error. Please check your connection."⟩,
   .ok ⟨none, some true, some committedAttendee, none⟩⟩

/-- Behavior where validation passes but the commit call throws an HTTP
500 APIError. -/
def commitFailApi : ApiBehavior :=
  ⟨.ok ⟨some true, none, some sampleAttendee, none⟩,
   .error ⟨500, "boom"⟩⟩

/-- C2: when the validate response recognizes the code but the attendee
belongs to a different event than the session, the attempt sets the
wrong-event result and never issues the commit call. -/
theorem wrongEvent_no_commit (code sel : String) (api : ApiBehavior)
    (v : ApiCheckInResult) (a : Attendee)
    (hc : code ≠ "") (hs : sel ≠ "")
    (hv : api.validateResp = .ok v)
    (ha : v.attendee = some a)
    (hvalid : v.valid.getD false = true)
    (hev : a.eventId ≠ sel) :
    validateAndCheckIn code sel api = ⟨⟨1, 0⟩, some wrongEventResult⟩ := by
  simp [validateAndCheckIn, runValidateFlow, hc, hs, hv, ha, hvalid, hev]

/-- C2 witness: concrete wrong-event scan on session E1. -/
theorem wrongEvent_no_commit_witness :
    validateAndCheckIn "QR123" "E1" wrongEventApi =
      ⟨⟨1, 0⟩, some wrongEventResult⟩ :=
  wrongEvent_no_commit "QR123" "E1" wrongEventApi
    ⟨some true, none, some otherEventAttendee, none⟩ otherEventAttendee
    (by decide) (by decide) rfl rfl rfl (by decide)

/-- C3: when the validate response is valid with an attendee of the
selected event who is not yet checked in and the commit response reports
success, the commit call is issued exactly once and the final result is
the success result carrying the attendee snapshot of the commit
response. -/
theorem happyPath_commit_once (code sel : String) (api : ApiBehavior)
    (v c : ApiCheckInResult) (a : Attendee)
    (hc : code ≠ "") (hs : sel ≠ "")
    (hv : api.validateResp = .ok v)
    (ha : v.attendee = some a)
    (hvalid : v.valid.getD false = true)
    (hev : a.eventId = sel)
    (hnotin : a.alreadyCheckedIn.getD false = false)
    (hco : api.commitResp = .ok c)
    (hsucc : c.success.getD false = true) :
    validateAndCheckIn code sel api =
      ⟨⟨1, 1⟩, some (successResult c.attendee)⟩ := by
  simp [validateAndCheckIn, runValidateFlow, hc, hs, hv, ha, hvalid, hev,
    hnotin, hco, hsucc]

/-- C3 witness: concrete happy-path scan on session E1. -/
theorem happyPath_commit_once_witness :
    validateAndCheckIn "QR123" "E1" happyApi =
      ⟨⟨1, 1⟩, some (successResult (some committedAttendee))⟩ :=
  happyPath_commit_once "QR123" "E1" happyApi
    ⟨some true, none, some sampleAttendee, none⟩
    ⟨none, some true, some committedAttendee, none⟩ sampleAttendee
    (by decide) (by decide) rfl rfl rfl rfl rfl rfl rfl

/-- C4: when the validated attendee of the selected event is already
checked in, the attempt sets the already-checked-in result, which carries
the attendee snapshot, and never issues the commit call. -/
theorem alreadyCheckedIn_no_commit (code sel : String) (api : ApiBehavior)
    (v : ApiCheckInResult) (a : Attendee)
    (hc : code ≠ "") (hs : sel ≠ "")
    (hv : api.validateResp = .ok v)
    (ha : v.attendee = some a)
    (hvalid : v.valid.getD false = true)
    (hev : a.eventId = sel)
    (hin : a.alreadyCheckedIn.getD false = true) :
    validateAndCheckIn code sel api =
      ⟨⟨1, 0⟩, some (alreadyCheckedInResult a)⟩ := by
  simp [validateAndCheckIn, runValidateFlow, hc, hs, hv, ha, hvalid, hev, hin]

/-- C4 witness: concrete rescan of an already-checked-in attendee. -/
theorem alreadyCheckedIn_no_commit_witness :
    validateAndCheckIn "QR123" "E1" alreadyApi =
      ⟨⟨1, 0⟩, some (alreadyCheckedInResult checkedInAttendee)⟩ :=
  alreadyCheckedIn_no_commit "QR123" "E1" alreadyApi
    ⟨some true, none, some checkedInAttendee, none⟩ checkedInAttendee
    (by decide) (by decide) rfl rfl rfl rfl rfl

/-- C5: when the validate response has a falsy valid flag or no attendee
payload, the attempt sets the invalid result with the response message
defaulted and never issues the commit call. -/
theorem invalidCode_no_commit (code sel : String) (api : ApiBehavior)
    (v : ApiCheckInResult)
    (hc : code ≠ "") (hs : sel ≠ "")
    (hv : api.validateResp = .ok v)
    (hinv : v.valid.getD false = false ∨ v.attendee = none) :
    validateAndCheckIn code sel api =
      ⟨⟨1, 0⟩, some (invalidResult v.message)⟩ := by
  rcases hinv with hval | hatt
  · rcases hatt : v.attendee with _ | a
    · simp [validateAndCheckIn, runValidateFlow, hc, hs, hv, hatt]
    · simp [validateAndCheckIn, runValidateFlow, hc, hs, hv, hatt, hval]
  · simp [validateAndCheckIn, runValidateFlow, hc, hs, hv, hatt]

/-- C5 witness: concrete unrecognized code. -/
theorem invalidCode_no_commit_witness :
    validateAndCheckIn "QR999" "E1" invalidApi =
      ⟨⟨1, 0⟩, some (invalidResult (some "QR code not found"))⟩ :=
  invalidCode_no_commit "QR999" "E1" invalidApi
    ⟨some false, none, none, some "QR code not found"⟩
    (by decide) (by decide) rfl (Or.inl rfl)

/-- C6: every APIError thrown by the validate or the commit call is caught
and mapped through getErrorMessage into an error result, and an attempt
that passes the early guard always sets a result, so no failure leaves the
controller as an exception. -/
theorem networkFailure_contained (code sel : String) (api : ApiBehavior)
    (hc : code ≠ "") (hs : sel ≠ "") :
    (∀ e, api.validateResp = .error e →
      validateAndCheckIn code sel api =
        ⟨⟨1, 0⟩, some (caughtErrorResult e)⟩) ∧
    (∀ e v a, api.validateResp = .ok v → v.attendee = some a →
      v.valid.getD false = true → a.eventId = sel →
      a.alreadyCheckedIn.getD false = false →
      api.commitResp = .error e →
      validateAndCheckIn code sel api =
        ⟨⟨1, 1⟩, some (caughtErrorResult e)⟩) ∧
    (validateAndCheckIn code sel api).result.isSome = true := by
  refine ⟨?_, ?_, ?_⟩
  · intro e he
    simp [validateAndCheckIn, runValidateFlow, hc, hs, he]
  · intro e v a hv ha hvalid hev hnotin hco
    simp [validateAndCheckIn, runValidateFlow, hc, hs, hv, ha, hvalid, hev,
      hnotin, hco]
  · unfold validateAndCheckIn
    rcases h : runValidateFlow sel api with ⟨tr, r⟩
    cases r <;> simp [hc, hs, h]

/-- C6 witness: a transport failure of the validate call ends as the
caught error result carrying the network error text. -/
theorem networkFailure_contained_witness :
    validateAndCheckIn "QR123" "E1" netFailApi =
      ⟨⟨1, 0⟩,
        some (caughtErrorResult
          ⟨0, "Network error. Please check your connection."⟩)⟩ :=
  (networkFailure_contained "QR123" "E1" netFailApi (by decide) (by decide)).1
    ⟨0, "Network error. Please check your connection."⟩ rfl

/-- C7: the device selection of startScanning fails with noCamera on an
empty enumeration, picks a device whose lowercased label contains back,
environment or rear when the search finds one, otherwise picks the last
enumerated device when more than one exists, and otherwise the only
device. -/
theorem deviceSelection_algorithm (devices : List VideoDevice) :
    (devices = [] → startScanning devices = .noCamera) ∧
    (∀ b, devices.find? (fun d => isBackCameraLabel d.label) = some b →
      startScanning devices = .started b.deviceId) ∧
    (∀ d0 rest, devices = d0 :: rest →
      devices.find? (fun d => isBackCameraLabel d.label) = none →
      1 < devices.length →
      startScanning devices = .started (devices.getLastD d0).deviceId) ∧
    (∀ d0, devices = [d0] → startScanning devices = .started d0.deviceId) := by
  refine ⟨?_, ?_, ?_, ?_⟩
  · intro h; subst h; rfl
  · intro b hb
    cases devices with
    | nil => simp [List.find?] at hb
    | cons d0 rest => simp [startScanning, chooseDeviceId, hb]
  · intro d0 rest h hf hl
    subst h
    simp [startScanning, chooseDeviceId, hf, hl]
    intro hrest
    subst hrest
    simp at hl
  · intro d0 h
    subst h
    by_cases hb : isBackCameraLabel d0.label
    · simp [startScanning, chooseDeviceId, List.find?, hb]
    · simp [startScanning, chooseDeviceId, List.find?, hb]

/-- C7 witness: the labeled back camera wins, the last of two unlabeled
cameras wins, and a single unlabeled camera is used. -/
theorem deviceSelection_algorithm_witness :
    startScanning [⟨"front-id", "Front Camera"⟩, ⟨"back-id", "Back Camera"⟩] =
      .started "back-id" ∧
    startScanning [⟨"c0", "Camera 0"⟩, ⟨"c1", "Camera 1"⟩] = .started "c1" ∧
    startScanning [⟨"solo", ""⟩] = .started "solo" := by
  refine ⟨?_, ?_, ?_⟩
  · exact (deviceSelection_algorithm _).2.1 ⟨"back-id", "Back Camera"⟩
      (by decide)
  · have h := (deviceSelection_algorithm
        [⟨"c0", "Camera 0"⟩, ⟨"c1", "Camera 1"⟩]).2.2.1
      ⟨"c0", "Camera 0"⟩ [⟨"c1", "Camera 1"⟩] rfl (by decide) (by decide)
    simpa using h
  · exact (deviceSelection_algorithm _).2.2.2 ⟨"solo", ""⟩ rfl

/-- C8 counterexample: with no selected event, nothing fails with a
NoEventSelected error: device selection starts scanning anyway, and a
decoded code is dropped silently, with no API call issued and no result
surfaced to the user. -/
theorem noEventSelected_counterexample :
    startScanning [⟨"cam0", "Integrated Camera"⟩] = .started "cam0" ∧
    validateAndCheckIn "QR123" "" happyApi = ⟨⟨0, 0⟩, none⟩ := by
  constructor
  · decide
  · decide

/-- C8 amended: startScanning requires no selected event; the only guard
is the one in validateAndCheckIn, which on an empty selected event
silently returns, issuing no API call and setting no result or error. -/
theorem noEventSelected_silent_noop (code : String) (api : ApiBehavior) :
    validateAndCheckIn code "" api = ⟨⟨0, 0⟩, none⟩ := by
  simp [validateAndCheckIn]

/-- C9: submitting the manual form with a code that trims to empty runs
nothing, keeping the input and issuing no API call, while a non-blank code
is handed, trimmed, to the same validateAndCheckIn used for decoded
codes, whose outcome the submission returns unchanged. -/
theorem manualEntry_parity (manualCode sel : String) (api : ApiBehavior) :
    (jsTrim manualCode = "" →
      handleManualSubmit manualCode sel api = (⟨⟨0, 0⟩, none⟩, manualCode)) ∧
    (jsTrim manualCode ≠ "" →
      handleManualSubmit manualCode sel api =
        (validateAndCheckIn (jsTrim manualCode) sel api, "")) := by
  constructor
  · intro h; simp [handleManualSubmit, h]
  · intro h; simp [handleManualSubmit, h]

/-- C9 witness: a whitespace-only submission is a no-op and a padded code
follows the decoded-code path on its trimmed text. -/
theorem manualEntry_parity_witness :
    handleManualSubmit "   " "E1" happyApi = (⟨⟨0, 0⟩, none⟩, "   ") ∧
    handleManualSubmit " QR123 " "E1" happyApi =
      (validateAndCheckIn "QR123" "E1" happyApi, "") := by
  constructor
  · exact (manualEntry_parity "   " "E1" happyApi).1 (by decide)
  · have h := (manualEntry_parity " QR123 " "E1" happyApi).2 (by decide)
    have ht : jsTrim " QR123 " = "QR123" := by decide
    rw [ht] at h
    exact h

/-- C10: stopScanning run right after stopScanning changes nothing more —
in particular it issues no further reset on the released handle — and
running it when no reader was ever acquired leaves the state untouched. -/
theorem stopScanning_idempotent (s : ReaderState) :
    stopScanning (stopScanning s) = stopScanning s ∧
    stopScanning ⟨none, 0⟩ = ⟨none, 0⟩ := by
  refine ⟨?_, rfl⟩
  cases h : s.reader <;> simp [stopScanning, h]

/-- C1: two decode callbacks delivering QR123 before the React effect
flush each invoke validateAndCheckIn, so two validations start instead of
the single one the specification requires; only a decode arriving after
the flush that released the reader is ignored. -/
theorem decode_race_double_validation :
    (runSession [.decode "QR123", .decode "QR123",
        .effectFlush]).validateStarts = 2 ∧
    (runSession [.decode "QR123", .effectFlush,
        .decode "QR123"]).validateStarts = 1 := by
  decide

end RsvpCheckIn
